import Mathlib

/-!
Shallow embedding of `nni/trial.py`, the trial-side runtime API of NNI.

The Python module keeps process-global session state (`_params`,
`_intermediate_seq`) plus identity values computed once from environment
variables, and delegates transport to a command channel.  Here the state is
passed explicitly, the environment is an input record of optional strings,
and the channel is modelled by its interaction: the parameter record it
yields is an input of `get_next_parameter`, the outcome of `send_metric`
(success, or the error it raises) is an input of the report functions, and
the envelopes handed to `send_metric` are collected in the result.
-/

namespace NNI

/-- Python values, as far as this module inspects them: metric payloads are
carried opaquely, parameter mappings are string-keyed dictionaries
(association lists with the first binding authoritative), and `pyNone`
stands for Python `None`.  Booleans are kept separate from integers so that
`isinstance(value, int)` can be modelled faithfully (Python `bool` is a
subclass of `int`). -/
inductive PyObject where
  | pyNone : PyObject
  | pyBool (b : Bool) : PyObject
  | pyInt (n : Int) : PyObject
  | pyFloat (q : ℚ) : PyObject
  | pyStr (s : String) : PyObject
  | pyDict (entries : List (String × PyObject)) : PyObject

/-- Errors the embedded code can raise. -/
inductive PyError where
  | assertionError (msg : String) : PyError
  | keyError (key : String) : PyError
  | valueError (msg : String) : PyError
  | channelError (msg : String) : PyError
deriving DecidableEq

/-- The environment variables `trial.py` reads through `trial_env_vars`
(`os.environ.get` semantics: `none` when the variable is absent). -/
structure TrialEnvVars where
  NNI_PLATFORM : Option String
  NNI_EXP_ID : Option String
  NNI_TRIAL_JOB_ID : Option String
  NNI_TRIAL_SEQ_ID : Option String

/-- A parameter record as `trial.py` consumes it: it reads exactly the
`parameter_id` and `parameters` keys of the TypedDict. -/
structure ParameterRecord where
  parameter_id : PyObject
  parameters : List (String × PyObject)

/-- The mutable module globals of `trial.py`: the stored parameter record
and the intermediate sequence counter. -/
structure TrialState where
  _params : Option ParameterRecord
  _intermediate_seq : Int

/-- State at module load: `_params = None`, `_intermediate_seq = 0`. -/
def initialState : TrialState := { _params := none, _intermediate_seq := 0 }

/-- Python `x or default` for an optional string: `None` and the empty
string are falsy. -/
def pyStrOr (v : Option String) (d : String) : String :=
  match v with
  | none => d
  | some s => if s = "" then d else s

/-- Module-level init `_experiment_id = trial_env_vars.NNI_EXP_ID or 'STANDALONE'`. -/
def _experiment_id (ev : TrialEnvVars) : String :=
  pyStrOr ev.NNI_EXP_ID "STANDALONE"

/-- Module-level init `_trial_id = trial_env_vars.NNI_TRIAL_JOB_ID or 'STANDALONE'`. -/
def _trial_id (ev : TrialEnvVars) : String :=
  pyStrOr ev.NNI_TRIAL_JOB_ID "STANDALONE"

/-- Model of Python `int(s)` on a decimal string (claims only depend on the
absent-variable branch, where it is not invoked). -/
def pyParseInt (s : String) : Option Int := s.toInt?

/-- Module-level init
`_sequence_id = int(trial_env_vars.NNI_TRIAL_SEQ_ID) if trial_env_vars.NNI_TRIAL_SEQ_ID is not None else 0`,
with the parse failure propagated. -/
def _sequence_id (ev : TrialEnvVars) : Except PyError Int :=
  match ev.NNI_TRIAL_SEQ_ID with
  | none => .ok 0
  | some s =>
    match pyParseInt s with
    | some n => .ok n
    | none => .error (.valueError s)

/-- `get_experiment_id()`: returns the module-level `_experiment_id`. -/
def get_experiment_id (ev : TrialEnvVars) : String := _experiment_id ev

/-- `get_trial_id()`: returns the module-level `_trial_id`. -/
def get_trial_id (ev : TrialEnvVars) : String := _trial_id ev

/-- `get_sequence_id()`: returns the module-level `_sequence_id`. -/
def get_sequence_id (ev : TrialEnvVars) : Except PyError Int := _sequence_id ev

/-- `get_next_parameter()`: stores whatever the channel's
`receive_parameter()` yielded (the `received` input) into `_params`, then
returns `None` if it was `None` and the record's `parameters` field
otherwise. -/
def get_next_parameter (received : Option ParameterRecord) (s : TrialState) :
    TrialState × Option (List (String × PyObject)) :=
  let s' : TrialState := { s with _params := received }
  match received with
  | none => (s', none)
  | some r => (s', some r.parameters)

/-- `get_next_parameters()`: alias of `get_next_parameter`. -/
def get_next_parameters (received : Option ParameterRecord) (s : TrialState) :
    TrialState × Option (List (String × PyObject)) :=
  get_next_parameter received s

/-- `get_current_parameter(tag)`: `None` if no record is stored; the whole
`parameters` mapping when `tag is None`; `parameters[tag]` otherwise, with
`KeyError` when the key is absent. -/
def get_current_parameter (tag : Option String) (s : TrialState) :
    Except PyError PyObject :=
  match s._params with
  | none => .ok .pyNone
  | some r =>
    match tag with
    | none => .ok (.pyDict r.parameters)
    | some t =>
      match r.parameters.lookup t with
      | some v => .ok v
      | none => .error (.keyError t)

/-- Python `isinstance(value, int)` (true for `bool` too, a subclass of `int`). -/
def isinstance_int : PyObject → Bool
  | .pyInt _ => true
  | .pyBool _ => true
  | _ => false

/-- The integer value of a `PyObject` for which `isinstance_int` holds. -/
def pyIntValue : PyObject → Int
  | .pyInt n => n
  | .pyBool b => if b then 1 else 0
  | _ => 0

/-- `overwrite_intermediate_seq(value)`: `assert isinstance(value, int)`,
then `_intermediate_seq = value`.  The result pairs the raised error (if
any) with the resulting global state. -/
def overwrite_intermediate_seq (value : PyObject) (s : TrialState) :
    Option PyError × TrialState :=
  if isinstance_int value then
    (none, { s with _intermediate_seq := pyIntValue value })
  else
    (some (.assertionError ""), s)

/-- The envelope passed to the channel's `send_metric`. -/
structure MetricEnvelope where
  parameter_id : PyObject
  trial_job_id : Option String
  type : String
  sequence : Int
  value : PyObject

/-- Outcome of a report call: the error it raised (if any), the global
state afterwards, and the envelopes handed to `send_metric`. -/
structure ReportResult where
  err : Option PyError
  state : TrialState
  sent : List MetricEnvelope

/-- `_params['parameter_id'] if _params else None`. -/
def paramIdOf (s : TrialState) : PyObject :=
  match s._params with
  | some r => r.parameter_id
  | none => .pyNone

/-- `report_intermediate_result(metric)`: asserts that `_params` is truthy
or `NNI_PLATFORM is None`; on success builds a `PERIODICAL` envelope with
the current `_intermediate_seq` and hands it to `send_metric` (whose
outcome is the `sendResult` input: `none` for success, `some e` when it
raises `e`); the counter is incremented only after the send returns. -/
def report_intermediate_result (ev : TrialEnvVars) (metric : PyObject)
    (sendResult : Option PyError) (s : TrialState) : ReportResult :=
  if s._params.isSome ∨ ev.NNI_PLATFORM = none then
    let envl : MetricEnvelope :=
      { parameter_id := paramIdOf s
        trial_job_id := ev.NNI_TRIAL_JOB_ID
        type := "PERIODICAL"
        sequence := s._intermediate_seq
        value := metric }
    match sendResult with
    | some e => { err := some e, state := s, sent := [envl] }
    | none =>
      { err := none
        state := { s with _intermediate_seq := s._intermediate_seq + 1 }
        sent := [envl] }
  else
    { err := some (.assertionError
        "nni.get_next_parameter() needs to be called before report_intermediate_result")
      state := s
      sent := [] }

/-- `report_final_result(metric)`: same assertion; builds a `FINAL`
envelope with `sequence = 0` and hands it to `send_metric`; never touches
`_intermediate_seq`. -/
def report_final_result (ev : TrialEnvVars) (metric : PyObject)
    (sendResult : Option PyError) (s : TrialState) : ReportResult :=
  if s._params.isSome ∨ ev.NNI_PLATFORM = none then
    let envl : MetricEnvelope :=
      { parameter_id := paramIdOf s
        trial_job_id := ev.NNI_TRIAL_JOB_ID
        type := "FINAL"
        sequence := 0
        value := metric }
    match sendResult with
    | some e => { err := some e, state := s, sent := [envl] }
    | none => { err := none, state := s, sent := [envl] }
  else
    { err := some (.assertionError
        "nni.get_next_parameter() needs to be called before report_final_result")
      state := s
      sent := [] }

/-- Runs one `report_intermediate_result` per metric in order, each with a
successful channel send, stopping at the first raised error and
concatenating the envelopes handed to the channel. -/
def runIntermediateN (ev : TrialEnvVars) (metrics : List PyObject)
    (s : TrialState) : ReportResult :=
  match metrics with
  | [] => { err := none, state := s, sent := [] }
  | m :: ms =>
    let r := report_intermediate_result ev m none s
    match r.err with
    | some e => { err := some e, state := r.state, sent := r.sent }
    | none =>
      let rest := runIntermediateN ev ms r.state
      { err := rest.err, state := rest.state, sent := r.sent ++ rest.sent }

/-- A report call tripped the module's usage assertion: it raised an
`AssertionError` and handed nothing to `send_metric`. -/
def assertionTripped (r : ReportResult) : Prop :=
  (∃ msg, r.err = some (.assertionError msg)) ∧ r.sent = []

/-- Environment with every NNI variable absent (standalone mode). -/
def evStandalone : TrialEnvVars :=
  { NNI_PLATFORM := none, NNI_EXP_ID := none, NNI_TRIAL_JOB_ID := none,
    NNI_TRIAL_SEQ_ID := none }

/-- Example record with `parameterId = "pid-1"` and parameters `a = 1, b = "x"`. -/
def recExample : ParameterRecord :=
  { parameter_id := .pyStr "pid-1"
    parameters := [("a", .pyInt 1), ("b", .pyStr "x")] }

/-- Example record storing the parameters `lr = 0.01`. -/
def exRecord : ParameterRecord :=
  { parameter_id := .pyInt 0, parameters := [("lr", .pyFloat (1/100))] }

/-- Session state holding `exRecord`. -/
def exState : TrialState := { _params := some exRecord, _intermediate_seq := 0 }

/-- Environment of an orchestrated run (platform signal present). -/
def evOrch : TrialEnvVars :=
  { NNI_PLATFORM := some "local", NNI_EXP_ID := some "exp1",
    NNI_TRIAL_JOB_ID := some "job1", NNI_TRIAL_SEQ_ID := some "3" }

lemma runIntermediateN_seqs (ev : TrialEnvVars) (ms : List PyObject) :
    ∀ s : TrialState, (runIntermediateN ev ms s).err = none →
      (runIntermediateN ev ms s).sent.map MetricEnvelope.sequence =
        (List.range ms.length).map (fun i : ℕ => s._intermediate_seq + (i : Int)) := by
  induction ms with
  | nil =>
    intro s _
    simp [runIntermediateN]
  | cons m ms ih =>
    intro s h
    by_cases hp : s._params.isSome ∨ ev.NNI_PLATFORM = none
    · simp only [runIntermediateN, report_intermediate_result, if_pos hp] at h ⊢
      have h' := ih { s with _intermediate_seq := s._intermediate_seq + 1 } h
      simp only [runIntermediateN] at h'
      simp only [List.map_append, h', List.length_cons, List.range_succ_eq_map,
        List.map_cons, List.map_map, List.singleton_append]
      refine List.cons_eq_cons.mpr ⟨by simp, ?_⟩
      apply List.map_congr_left
      intro i _
      simp only [Function.comp_apply, Nat.succ_eq_add_one]
      push_cast
      ring
    · simp only [runIntermediateN, report_intermediate_result, if_neg hp] at h
      exact absurd h (by simp)

/-- C1: starting from the initial state, N consecutive successful
`report_intermediate_result` calls with no override in between hand the
channel envelopes whose `sequence` values are `0, 1, ..., N-1` in order. -/
theorem C1_sequence_monotonicity (ev : TrialEnvVars) (metrics : List PyObject)
    (h : (runIntermediateN ev metrics initialState).err = none) :
    (runIntermediateN ev metrics initialState).sent.map MetricEnvelope.sequence =
      (List.range metrics.length).map (fun i : ℕ => (i : Int)) := by
  have h' := runIntermediateN_seqs ev metrics initialState h
  simpa [initialState] using h'

/-- Witness for C1: three successful standalone reports yield sequences 0, 1, 2. -/
theorem C1_sequence_monotonicity_witness :
    (runIntermediateN evStandalone [.pyFloat 1, .pyFloat 2, .pyFloat 3]
        initialState).err = none ∧
    (runIntermediateN evStandalone [.pyFloat 1, .pyFloat 2, .pyFloat 3]
        initialState).sent.map MetricEnvelope.sequence =
      (List.range 3).map (fun i : ℕ => (i : Int)) :=
  ⟨rfl, C1_sequence_monotonicity evStandalone [.pyFloat 1, .pyFloat 2, .pyFloat 3] rfl⟩

/-- C2: a report call (intermediate or final) avoids the fatal usage
assertion exactly when a `ParameterRecord` is stored or `NNI_PLATFORM` is
absent; in every other state it raises an assertion error and hands nothing
to the channel. -/
theorem C2_usage_contract (ev : TrialEnvVars) (s : TrialState) (m : PyObject)
    (sr : Option PyError) :
    ((s._params.isSome ∨ ev.NNI_PLATFORM = none) ↔
        ¬ assertionTripped (report_intermediate_result ev m sr s)) ∧
    ((s._params.isSome ∨ ev.NNI_PLATFORM = none) ↔
        ¬ assertionTripped (report_final_result ev m sr s)) := by
  by_cases hp : s._params.isSome ∨ ev.NNI_PLATFORM = none
  · refine ⟨⟨fun _ => ?_, fun _ => hp⟩, ⟨fun _ => ?_, fun _ => hp⟩⟩ <;>
      · intro htr
        rcases htr with ⟨_, hsent⟩
        simp only [report_intermediate_result, report_final_result, if_pos hp] at hsent
        cases sr <;> simp at hsent
  · have hi : assertionTripped (report_intermediate_result ev m sr s) := by
      simp only [report_intermediate_result, if_neg hp]
      exact ⟨⟨_, rfl⟩, rfl⟩
    have hf : assertionTripped (report_final_result ev m sr s) := by
      simp only [report_final_result, if_neg hp]
      exact ⟨⟨_, rfl⟩, rfl⟩
    exact ⟨⟨fun h' => absurd h' hp, fun hn => absurd hi hn⟩,
      ⟨fun h' => absurd h' hp, fun hn => absurd hf hn⟩⟩

/-- Witness for C2: the standalone initial state reports without tripping
the assertion; an orchestrated run with nothing stored trips it. -/
theorem C2_usage_contract_witness :
    ¬ assertionTripped (report_intermediate_result evStandalone (.pyFloat 1) none
        initialState) ∧
    assertionTripped (report_final_result evOrch (.pyFloat 1) none initialState) := by
  constructor
  · exact (C2_usage_contract evStandalone initialState (.pyFloat 1) none).1.mp
      (Or.inr rfl)
  · by_contra hn
    have hpre := (C2_usage_contract evOrch initialState (.pyFloat 1) none).2.mpr hn
    rcases hpre with h | h <;> simp [initialState, evOrch] at h

/-- C3: in standalone mode (no platform signal), with nothing stored and no
prior parameter fetch, an intermediate report succeeds and the envelope's
`parameter_id` is `None`. -/
theorem C3_standalone_fallback (ev : TrialEnvVars) (m : PyObject)
    (h : ev.NNI_PLATFORM = none) :
    (report_intermediate_result ev m none initialState).err = none ∧
    (report_intermediate_result ev m none initialState).sent.map
      MetricEnvelope.parameter_id = [.pyNone] := by
  simp [report_intermediate_result, initialState, paramIdOf, h]

/-- Witness for C3: reporting 0.1 standalone succeeds with `parameter_id = None`. -/
theorem C3_standalone_fallback_witness :
    evStandalone.NNI_PLATFORM = none ∧
    (report_intermediate_result evStandalone (.pyFloat (1/10)) none
        initialState).err = none ∧
    (report_intermediate_result evStandalone (.pyFloat (1/10)) none
        initialState).sent.map MetricEnvelope.parameter_id = [.pyNone] :=
  ⟨rfl, C3_standalone_fallback evStandalone (.pyFloat (1/10)) rfl⟩

/-- C8: with the experiment-id, trial-job-id and sequence-id environment
variables absent, the identity getters return `"STANDALONE"`,
`"STANDALONE"` and `0`; they are pure functions of the environment captured
at initialization, untouched by any session-state operation. -/
theorem C8_identity_defaults (ev : TrialEnvVars) (h1 : ev.NNI_EXP_ID = none)
    (h2 : ev.NNI_TRIAL_JOB_ID = none) (h3 : ev.NNI_TRIAL_SEQ_ID = none) :
    get_experiment_id ev = "STANDALONE" ∧ get_trial_id ev = "STANDALONE" ∧
    get_sequence_id ev = .ok 0 := by
  refine ⟨?_, ?_, ?_⟩ <;>
    simp [get_experiment_id, get_trial_id, get_sequence_id, _experiment_id,
      _trial_id, _sequence_id, pyStrOr, h1, h2, h3]

/-- Witness for C8: the fully-absent environment yields the defaults. -/
theorem C8_identity_defaults_witness :
    get_experiment_id evStandalone = "STANDALONE" ∧
    get_trial_id evStandalone = "STANDALONE" ∧
    get_sequence_id evStandalone = .ok 0 :=
  C8_identity_defaults evStandalone rfl rfl rfl

/-- C4: `get_next_parameter` stores exactly what the channel yielded —
unset when the channel yields nothing (returning `none`), otherwise the
full record atomically (returning exactly its `parameters` field) — and a
subsequent `report_final_result` then carries the stored record's
`parameter_id`. -/
theorem C4_parameter_replacement (s : TrialState) (received : Option ParameterRecord)
    (ev : TrialEnvVars) (m : PyObject) (r : ParameterRecord) :
    (get_next_parameter received s =
      ({ s with _params := received }, received.map ParameterRecord.parameters)) ∧
    (received = some r →
      (report_final_result ev m none (get_next_parameter received s).1).sent.map
        MetricEnvelope.parameter_id = [r.parameter_id]) := by
  constructor
  · cases received <;> rfl
  · rintro rfl
    simp [get_next_parameter, report_final_result, paramIdOf]

/-- Witness for C4: receiving `recExample` replaces the stored record and a
final report carries `parameter_id = "pid-1"`. -/
theorem C4_parameter_replacement_witness :
    (get_next_parameter (some recExample) initialState =
      ({ _params := some recExample, _intermediate_seq := 0 },
        some recExample.parameters)) ∧
    (report_final_result evStandalone (.pyFloat (95/100)) none
        (get_next_parameter (some recExample) initialState).1).sent.map
      MetricEnvelope.parameter_id = [.pyStr "pid-1"] :=
  ⟨(C4_parameter_replacement initialState (some recExample) evStandalone
      (.pyFloat (95/100)) recExample).1,
   (C4_parameter_replacement initialState (some recExample) evStandalone
      (.pyFloat (95/100)) recExample).2 rfl⟩

/-- C5: whenever the usage precondition holds, `report_final_result` hands
the channel exactly one envelope with `type = "FINAL"` and `sequence = 0`,
for any prior value of the intermediate counter, and leaves the whole
session state unchanged. -/
theorem C5_final_sequence_fixed (ev : TrialEnvVars) (s : TrialState)
    (m : PyObject) (sr : Option PyError)
    (h : s._params.isSome ∨ ev.NNI_PLATFORM = none) :
    (report_final_result ev m sr s).sent =
      [{ parameter_id := paramIdOf s, trial_job_id := ev.NNI_TRIAL_JOB_ID,
         type := "FINAL", sequence := 0, value := m }] ∧
    (report_final_result ev m sr s).state = s := by
  simp only [report_final_result, if_pos h]
  cases sr <;> exact ⟨rfl, rfl⟩

/-- Witness for C5: after seven intermediate reports' worth of counter, a
final report still sends `FINAL` with `sequence = 0` and keeps the state. -/
theorem C5_final_sequence_fixed_witness :
    (report_final_result evStandalone (.pyFloat 2) none
        { _params := none, _intermediate_seq := 7 }).sent =
      [{ parameter_id := .pyNone, trial_job_id := none, type := "FINAL",
         sequence := 0, value := .pyFloat 2 }] ∧
    (report_final_result evStandalone (.pyFloat 2) none
        { _params := none, _intermediate_seq := 7 }).state =
      { _params := none, _intermediate_seq := 7 } :=
  C5_final_sequence_fixed evStandalone { _params := none, _intermediate_seq := 7 }
    (.pyFloat 2) none (Or.inr rfl)

/-- C6: `overwrite_intermediate_seq` replaces the counter with any given
integer and changes nothing else; a non-integer argument raises the
`isinstance` assertion and leaves the state untouched; after overriding to
5, the next intermediate report sends `sequence = 5` and the one after it
`sequence = 6`. -/
theorem C6_override_counter (s : TrialState) (v : PyObject) (ev : TrialEnvVars)
    (m : PyObject) (hok : s._params.isSome ∨ ev.NNI_PLATFORM = none) :
    (∀ n : Int, overwrite_intermediate_seq (.pyInt n) s =
        (none, { s with _intermediate_seq := n })) ∧
    (isinstance_int v = false →
        overwrite_intermediate_seq v s = (some (.assertionError ""), s)) ∧
    (report_intermediate_result ev m none
        { s with _intermediate_seq := 5 }).sent.map MetricEnvelope.sequence = [5] ∧
    (report_intermediate_result ev m none
        { s with _intermediate_seq := 5 }).state = { s with _intermediate_seq := 6 } ∧
    (report_intermediate_result ev m none
        { s with _intermediate_seq := 6 }).sent.map MetricEnvelope.sequence = [6] := by
  have hok' : ∀ n : Int, ({ s with _intermediate_seq := n } : TrialState)._params.isSome
      ∨ ev.NNI_PLATFORM = none := fun _ => hok
  refine ⟨fun n => by simp [overwrite_intermediate_seq, isinstance_int, pyIntValue],
    fun hv => by simp [overwrite_intermediate_seq, hv], ?_, ?_, ?_⟩ <;>
    · simp only [report_intermediate_result, if_pos (hok' _)]
      norm_num

/-- Witness for C6: overriding to 5 from the initial standalone state, then
reporting twice, sends sequences 5 and then 6; a string argument fails. -/
theorem C6_override_counter_witness :
    overwrite_intermediate_seq (.pyInt 5) initialState =
      (none, { _params := none, _intermediate_seq := 5 }) ∧
    overwrite_intermediate_seq (.pyStr "x") initialState =
      (some (.assertionError ""), initialState) ∧
    (report_intermediate_result evStandalone (.pyFloat 1) none
        { _params := none, _intermediate_seq := 5 }).sent.map
      MetricEnvelope.sequence = [5] ∧
    (report_intermediate_result evStandalone (.pyFloat 1) none
        { _params := none, _intermediate_seq := 6 }).sent.map
      MetricEnvelope.sequence = [6] :=
  ⟨(C6_override_counter initialState (.pyStr "x") evStandalone (.pyFloat 1)
      (Or.inr rfl)).1 5,
   (C6_override_counter initialState (.pyStr "x") evStandalone (.pyFloat 1)
      (Or.inr rfl)).2.1 rfl,
   (C6_override_counter initialState (.pyStr "x") evStandalone (.pyFloat 1)
      (Or.inr rfl)).2.2.1,
   (C6_override_counter initialState (.pyStr "x") evStandalone (.pyFloat 1)
      (Or.inr rfl)).2.2.2.2⟩

/-- C7: `get_current_parameter` returns `None` when nothing is stored; with
a stored record it returns the whole mapping when no tag is given, the
tag's value when the tag is bound, and raises an uncaught `KeyError` when
the tag is absent. -/
theorem C7_current_parameter (s : TrialState) (tag : Option String)
    (r : ParameterRecord) (t : String) :
    (s._params = none → get_current_parameter tag s = .ok .pyNone) ∧
    (s._params = some r →
        get_current_parameter none s = .ok (.pyDict r.parameters)) ∧
    (s._params = some r → ∀ v, r.parameters.lookup t = some v →
        get_current_parameter (some t) s = .ok v) ∧
    (s._params = some r → r.parameters.lookup t = none →
        get_current_parameter (some t) s = .error (.keyError t)) := by
  refine ⟨fun h => by simp [get_current_parameter, h],
    fun h => by simp [get_current_parameter, h], fun h v hv => ?_, fun h hn => ?_⟩
  · simp only [get_current_parameter, h]
    rw [hv]
  · simp only [get_current_parameter, h]
    rw [hn]

/-- Witness for C7: with `lr = 0.01` stored, the tag `lr` resolves, the tag
`missing` raises `KeyError`, no tag returns the mapping, and the initial
state returns `None`. -/
theorem C7_current_parameter_witness :
    get_current_parameter none initialState = .ok .pyNone ∧
    get_current_parameter none exState = .ok (.pyDict [("lr", .pyFloat (1/100))]) ∧
    get_current_parameter (some "lr") exState = .ok (.pyFloat (1/100)) ∧
    get_current_parameter (some "missing") exState = .error (.keyError "missing") :=
  ⟨(C7_current_parameter initialState none exRecord "lr").1 rfl,
   (C7_current_parameter exState none exRecord "lr").2.1 rfl,
   (C7_current_parameter exState (some "lr") exRecord "lr").2.2.1 rfl
     (.pyFloat (1/100)) rfl,
   (C7_current_parameter exState (some "missing") exRecord "missing").2.2.2 rfl rfl⟩

/-- C9: when the usage precondition holds, a failing `send_metric` makes
`report_intermediate_result` propagate that very error with the counter
(and all state) unchanged, while a successful send increments the counter
by exactly one. -/
theorem C9_increment_after_send (ev : TrialEnvVars) (s : TrialState)
    (m : PyObject) (h : s._params.isSome ∨ ev.NNI_PLATFORM = none) :
    (∀ e : PyError, report_intermediate_result ev m (some e) s =
      { err := some e, state := s,
        sent := [{ parameter_id := paramIdOf s,
                   trial_job_id := ev.NNI_TRIAL_JOB_ID, type := "PERIODICAL",
                   sequence := s._intermediate_seq, value := m }] }) ∧
    (report_intermediate_result ev m none s).err = none ∧
    (report_intermediate_result ev m none s).state =
      { s with _intermediate_seq := s._intermediate_seq + 1 } := by
  refine ⟨fun e => ?_, ?_, ?_⟩ <;>
    simp only [report_intermediate_result, if_pos h]

/-- Witness for C9: a channel error from the initial standalone state is
propagated with the counter still 0; a successful send moves it to 1. -/
theorem C9_increment_after_send_witness :
    report_intermediate_result evStandalone (.pyFloat 1)
        (some (.channelError "boom")) initialState =
      { err := some (.channelError "boom"), state := initialState,
        sent := [{ parameter_id := .pyNone, trial_job_id := none,
                   type := "PERIODICAL", sequence := 0, value := .pyFloat 1 }] } ∧
    (report_intermediate_result evStandalone (.pyFloat 1) none
        initialState).state = { _params := none, _intermediate_seq := 1 } :=
  ⟨(C9_increment_after_send evStandalone initialState (.pyFloat 1)
      (Or.inr rfl)).1 (.channelError "boom"),
   (C9_increment_after_send evStandalone initialState (.pyFloat 1)
      (Or.inr rfl)).2.2⟩

/-- C10: every envelope either report hands to the channel carries the raw
`NNI_TRIAL_JOB_ID` environment value, not `get_trial_id()`: with the
variable absent the envelope field is `None` while `get_trial_id` returns
`"STANDALONE"`. -/
theorem C10_raw_trial_job_id (ev : TrialEnvVars) (s : TrialState)
    (m : PyObject) (sr : Option PyError) :
    ((report_intermediate_result ev m sr s).sent.map MetricEnvelope.trial_job_id =
      (report_intermediate_result ev m sr s).sent.map
        (fun _ => ev.NNI_TRIAL_JOB_ID)) ∧
    ((report_final_result ev m sr s).sent.map MetricEnvelope.trial_job_id =
      (report_final_result ev m sr s).sent.map (fun _ => ev.NNI_TRIAL_JOB_ID)) ∧
    (ev.NNI_TRIAL_JOB_ID = none → get_trial_id ev = "STANDALONE") := by
  refine ⟨?_, ?_, fun h => by simp [get_trial_id, _trial_id, pyStrOr, h]⟩ <;>
    · simp only [report_intermediate_result, report_final_result]
      split
      · cases sr <;> rfl
      · rfl

/-- Witness for C10: standalone, the sent envelope's `trial_job_id` is
`None` though `get_trial_id` returns `"STANDALONE"`. -/
theorem C10_raw_trial_job_id_witness :
    get_trial_id evStandalone = "STANDALONE" ∧
    (report_intermediate_result evStandalone (.pyFloat 1) none
        initialState).sent.map MetricEnvelope.trial_job_id = [none] :=
  ⟨(C10_raw_trial_job_id evStandalone initialState (.pyFloat 1) none).2.2 rfl,
   (C10_raw_trial_job_id evStandalone initialState (.pyFloat 1) none).1⟩

end NNI
